import Mathlib

/-!
Verification development for the English-trainer front end
(`src/web/src/hooks/useRecorder.js` and the main `App.jsx` iteration).

The development shallowly embeds:
* the conversation orchestrator of `App.jsx` (`onBlob`, `handleStart`,
  `handleNext`, `handleScore`) as pure state transformers over an
  explicit `AppState`, with remote calls resolved by an `Env` oracle
  (`none` models a thrown/non-ok response) and recorded in a call log;
* the capture engine of `useRecorder.js` (the VAD/token-guard variant)
  as a small-step machine over `RecState`, where the asynchronous
  MediaRecorder callbacks (`ondataavailable`, `onstop`) are queued
  events processed one atomic step at a time, matching the
  single-threaded cooperative scheduling of the browser event loop;
* the VAD tick of `_startMetering` and the RMS level meter `_levelDb`.

`crypto.randomUUID()` is modelled as a fresh-counter supply
(`uuidCounter`): its contract is that each draw is distinct.
Timestamps and decibel values are rationals; sample values are reals.
-/

namespace Trainer

/-- Remote operation results. `session_id`/`question_id` are opaque server
identifiers, modelled as naturals. From `/api/sim/start` responses. -/
structure StartRes where
  session_id : Nat
  question_id : Nat
  question : String
deriving DecidableEq, Repr

/-- Score breakdown returned by `/api/sim/score` (`res.scores`). -/
structure Scores where
  content : Nat
  pronunciation : Nat
  fluency : Nat
  overall : Nat
deriving DecidableEq, Repr

/-- Full `/api/sim/score` response. -/
structure ScoreRes where
  scores : Scores
  tips : List String
deriving DecidableEq, Repr

/-- `/api/sim/next` response. -/
structure NextRes where
  question_id : Nat
  question : String
deriving DecidableEq, Repr

/-- Oracle for the remote collaborators. A `none` field models the call
throwing (network failure or a non-ok HTTP status); `some` carries the
parsed success payload. `asr` is the `asr_text` of `/api/sim/answer/audio`;
`tts` is the WAV blob (modelled by its size) of `/api/tts/say`.
A playback failure of the returned WAV is swallowed by the inner
`try/catch` around `audio.play()` in `App.jsx` (only logged), leaving no
state change, so it is not a parameter of the model. -/
structure Env where
  simStart : Option StartRes
  asr : Option String
  tts : Option Nat
  simNext : Option NextRes
  simScore : Option ScoreRes
deriving DecidableEq, Repr

/-- Message payloads (`makeMsg` third argument). `scoreSummary` models the
interpolated score/tips string built in `handleScore`. -/
inductive Payload
  | text (s : String)
  | audio (size : Nat)
  | scoreSummary (overall : Nat) (tips : List String)
deriving DecidableEq, Repr

/-- A chat message (`makeMsg(role, type, payload)`; the `ts` timestamp is
not observable by any claim and is omitted). -/
structure Msg where
  role : String
  mtype : String
  payload : Payload
deriving DecidableEq, Repr

/-- One outbound remote call, as issued by `App.jsx`. The `reqId` fields
record the `X-Req-Id` header attached to the two fetches of `onBlob`. -/
inductive RCall
  | simStart
  | simNext (sid : Nat)
  | simScore (sid qid : Nat)
  | simAnswerAudio (sid qid : Nat) (reqId : Option Nat)
  | ttsSay (sid qid : Nat) (reqId : Option Nat)
deriving DecidableEq, Repr

/-- The `App.jsx` component state: ConversationSession fields
(`sessionId`, `questionId`, `question`, `lastScores`), the chat log, the
status chip, the dedup guard (`onBlobLock`, `reqIdRef`), the uuid supply,
the recorder's `isProcessing` flag (via `setIsProcessing`), the remote
call log, and a log of playback starts. -/
structure AppState where
  sessionId : Option Nat
  questionId : Option Nat
  question : String
  lastScores : Option Scores
  messages : List Msg
  status : String × String
  onBlobLock : Bool
  reqId : Option Nat
  uuidCounter : Nat
  isProcessing : Bool
  calls : List RCall
  playbackStarted : List Nat
deriving DecidableEq, Repr

/-- `addMessage(role, type, payload)` appends to the current chat. -/
def addMessage (role mtype : String) (p : Payload) (s : AppState) : AppState :=
  { s with messages := s.messages ++ [⟨role, mtype, p⟩] }

/-- The lazy-start block of `onBlob` (`if (!sid || !qid) { ... simStart ... }`,
App.jsx lines 95–107). Returns the `(sid, qid)` pair in scope afterwards,
or the state at the throw point. -/
def lazyStart (env : Env) (s : AppState) : Except AppState (Nat × Nat × AppState) :=
  match s.sessionId, s.questionId with
  | some sid, some qid => .ok (sid, qid, s)
  | _, _ =>
    let s := { s with calls := s.calls ++ ([.simStart] : List RCall) }
    match env.simStart with
    | none => .error s
    | some r =>
      let s := { s with sessionId := some r.session_id,
                        questionId := some r.question_id,
                        question := r.question }
      .ok (r.session_id, r.question_id, addMessage "bot" "text" (.text r.question) s)

/-- The body of `onBlob`'s `try` block after the lock/request-id/UI
preamble (App.jsx lines 95–161): lazy start, the `/api/sim/answer/audio`
fetch (with `X-Req-Id`), the `/api/tts/say` fetch (with `X-Req-Id`), and
playback. `.error` carries the state at the point an exception was
thrown. -/
def onBlobTry (env : Env) (s : AppState) : Except AppState AppState :=
  match lazyStart env s with
  | .error s => .error s
  | .ok (sid, qid, s) =>
    let s := { s with calls := s.calls ++ [.simAnswerAudio sid qid s.reqId] }
    match env.asr with
    | none => .error s
    | some asrText =>
      let shown := if asrText = "" then "(no speech detected)" else asrText
      let s := addMessage "user" "text" (.text shown) s
      let s := { s with status := ("busy", "Tutor thinking… then speaking reply…") }
      let s := { s with calls := s.calls ++ [.ttsSay sid qid s.reqId] }
      match env.tts with
      | none => .error s
      | some wav =>
        let s := { s with playbackStarted := s.playbackStarted ++ [wav] }
        let s := addMessage "bot" "audio" (.audio wav) s
        .ok { s with status := ("", "Ready") }

/-- `onBlob` (App.jsx lines 78–173): the dedup-guard check and early
return, the once-per-utterance request id draw, the UI preamble, the
`try` body, the `catch` (error bubble + error status), and the `finally`
(`setIsProcessing(false)`, release of the lock). The busy check's
`return` sits inside the `try`, so on the drop path the `finally` still
runs: a busy delivery clears `isProcessing` and `onBlobLock` even though
this invocation never acquired the lock. -/
def onBlob (env : Env) (blobSize : Nat) (s : AppState) : AppState :=
  if s.onBlobLock then { s with isProcessing := false, onBlobLock := false }
  else
    let s := { s with onBlobLock := true }
    let rid := s.uuidCounter
    let s := { s with reqId := some rid, uuidCounter := s.uuidCounter + 1 }
    let s := addMessage "user" "audio" (.audio blobSize) s
    let s := { s with status := ("warn", "Transcribing…") }
    let s2 :=
      match onBlobTry env s with
      | .ok s' => s'
      | .error s' =>
        { s' with
          messages := s'.messages ++ [(⟨"bot", "text", .text "Error: audio upload/LLM-TTS failed."⟩ : Msg)],
          status := ("err", "Audio/LLM error") }
    { s2 with isProcessing := false, onBlobLock := false }

/-- `handleStart` (App.jsx lines 188–202). -/
def handleStart (env : Env) (s : AppState) : AppState :=
  let s := { s with status := ("busy", "Starting session...") }
  let s := { s with calls := s.calls ++ ([.simStart] : List RCall) }
  match env.simStart with
  | none => { s with status := ("err", "Start failed") }
  | some r =>
    let s := { s with sessionId := some r.session_id,
                      questionId := some r.question_id,
                      question := r.question }
    let s := addMessage "bot" "text" (.text r.question) s
    { s with lastScores := none, status := ("", "Session ready") }

/-- `handleNext` (App.jsx lines 204–218). -/
def handleNext (env : Env) (s : AppState) : AppState :=
  match s.sessionId with
  | none => s
  | some sid =>
    let s := { s with status := ("busy", "Getting next question...") }
    let s := { s with calls := s.calls ++ ([.simNext sid] : List RCall) }
    match env.simNext with
    | none => { s with status := ("err", "Next failed") }
    | some r =>
      let s := { s with questionId := some r.question_id, question := r.question }
      let s := addMessage "bot" "text" (.text r.question) s
      { s with lastScores := none, status := ("", "Next question") }

/-- `handleScore` (App.jsx lines 220–236). -/
def handleScore (env : Env) (s : AppState) : AppState :=
  match s.sessionId, s.questionId with
  | some sid, some qid =>
    let s := { s with status := ("busy", "Scoring...") }
    let s := { s with calls := s.calls ++ ([.simScore sid qid] : List RCall) }
    match env.simScore with
    | none => { s with status := ("err", "Score failed") }
    | some r =>
      let s := { s with lastScores := some r.scores }
      let s := addMessage "bot" "text" (.scoreSummary r.scores.overall r.tips) s
      { s with status := ("", "Scored") }
  | _, _ => s

/-- A fresh `App.jsx` mount: no session, empty guard, counter at 0. (The
two seeded demo chat messages are irrelevant to every claim and omitted.) -/
def app0 : AppState :=
  { sessionId := none, questionId := none, question := "", lastScores := none,
    messages := [], status := ("", "Idle — click the mic"), onBlobLock := false,
    reqId := none, uuidCounter := 0, isProcessing := false, calls := [],
    playbackStarted := [] }

/-- States of a `MediaRecorder` instance relevant here. -/
inductive MRState
  | recording
  | inactive
deriving DecidableEq, Repr

/-- A live `MediaRecorder`: its state, the audio it has captured and not
yet flushed (modelled as a byte count, delivered as one `dataavailable`
burst when stopped, per the MediaRecorder stop algorithm), and the
`mySession` token captured by the `ondataavailable`/`onstop` closures
(useRecorder.js line 222). -/
structure MediaRec where
  state : MRState
  buffered : Nat
  token : Nat
deriving DecidableEq, Repr

/-- Queued asynchronous MediaRecorder callbacks, in delivery order. Each
carries the session token its closure was created under. -/
inductive REvent
  | dataAvail (tok size : Nat)
  | stopEv (tok : Nat)
deriving DecidableEq, Repr

/-- State of the token-guard `useRecorder` hook (the first, canonical
variant of useRecorder.js), restricted to the fields the claims touch:
`sessionIdRef`, `chunksRef` (chunk sizes), `mediaRecorderRef`,
`isRecording`/`isProcessing`, `startLockRef`, whether a `start()` is
suspended at `await getUserMedia` (`pendingStart`), whether the
lock-release `setTimeout` from `start`'s `finally` is scheduled
(`lockTimer`), `streamRef` occupancy (`streamHeld`), the number of
acquired-and-not-yet-stopped microphone streams (`liveStreams`), the
queue of not-yet-run MediaRecorder callbacks, the log of blob sizes
passed to `onBlob` (`delivered`), and the number of `onstop` handlers
suspended at `await onBlob` (`onBlobWaits`). -/
structure RecState where
  sessionId : Nat
  chunks : List Nat
  mr : Option MediaRec
  isRecording : Bool
  isProcessing : Bool
  startLock : Bool
  pendingStart : Bool
  lockTimer : Bool
  streamHeld : Bool
  liveStreams : Nat
  queue : List REvent
  delivered : List Nat
  onBlobWaits : Nat
deriving DecidableEq, Repr

/-- `teardown` (useRecorder.js lines 88–108): stops the tracks of the
stream in `streamRef` (releasing that device) and clears the ref. The
WebAudio/timer cleanup has no footprint in this model. -/
def teardown (s : RecState) : RecState :=
  { s with streamHeld := false,
           liveStreams := s.liveStreams - (if s.streamHeld then 1 else 0) }

/-- `mr.stop()` as invoked on a recording recorder: the recorder becomes
inactive and, per the MediaRecorder stop algorithm, a final
`dataavailable` carrying all buffered data is queued, followed by the
`stop` event. -/
def mrStop (s : RecState) (m : MediaRec) : RecState :=
  { s with mr := some ⟨.inactive, 0, m.token⟩,
           queue := s.queue ++ [.dataAvail m.token m.buffered, .stopEv m.token] }

/-- `stop()` (useRecorder.js lines 303–308): no-op unless the current
recorder is recording. The VAD silence stop and the `maxSeconds` timer
run the same guarded `mr.stop()`. -/
def stopCall (s : RecState) : RecState :=
  match s.mr with
  | none => s
  | some m => if m.state = MRState.recording then mrStop s m else s

/-- `cancel()` (useRecorder.js lines 310–320): clears `chunksRef`, stops
the recorder if it is recording, nulls `mediaRecorderRef`, clears the
React flags, and tears down. Note: it does not touch `sessionIdRef`. -/
def cancelCall (s : RecState) : RecState :=
  let s := { s with chunks := ([] : List Nat) }
  let s :=
    match s.mr with
    | none => s
    | some m => if m.state = MRState.recording then mrStop s m else s
  teardown { s with mr := none, isRecording := false, isProcessing := false }

/-- `ondataavailable` (useRecorder.js lines 224–234), in the
`timesliceMs = 0` configuration used by App.jsx: drop if the token is
stale or the data empty, otherwise push the chunk. -/
def handleDataAvail (s : RecState) (tok size : Nat) : RecState :=
  if s.sessionId ≠ tok then s
  else if size = 0 then s
  else { s with chunks := s.chunks ++ [size] }

/-- `onstop` (useRecorder.js lines 236–270), `timesliceMs = 0` path: drop
if stale; otherwise build the final blob from `chunksRef`, clear
`chunksRef` and `mediaRecorderRef`, clear `isRecording`; if the blob is
empty skip the consumer callback and run the `finally`
(`setIsProcessing(false)`, `teardown()`) in the same turn; otherwise set
`isProcessing`, record the `onBlob` invocation and suspend at
`await onBlob` (the `finally` runs at `onBlobResume`). -/
def handleStopEv (s : RecState) (tok : Nat) : RecState :=
  if s.sessionId ≠ tok then s
  else
    let finalBlob := s.chunks.sum
    let s := { s with chunks := ([] : List Nat), mr := none, isRecording := false }
    if finalBlob = 0 then
      teardown { s with isProcessing := false }
    else
      { s with isProcessing := true,
               delivered := s.delivered ++ [finalBlob],
               onBlobWaits := s.onBlobWaits + 1 }

/-- Atomic steps of the cooperative scheduler around the hook. A step is
a maximal synchronous run between suspension points:
`startBegin` is `start()` up to `await getUserMedia` (lines 170–195);
`startFinish b` is the resumption when the device is granted and the
recorder will capture `b` bytes (lines 211–297);
`startFail` is the resumption into the `catch` when acquisition throws
(lines 286–297, with the `finally` in the same turn);
`lockFire` is the `setTimeout` from `start`'s `finally` releasing the
start lock; `stop`/`cancel` are the exposed calls; `deliver` runs the
next queued MediaRecorder callback; `onBlobResume` resumes an `onstop`
suspended at `await onBlob` into its `finally`. -/
inductive Cmd
  | startBegin
  | startFinish (captured : Nat)
  | startFail
  | lockFire
  | stop
  | cancel
  | deliver
  | onBlobResume
deriving DecidableEq, Repr

/-- One atomic step. -/
def step (s : RecState) (c : Cmd) : RecState :=
  match c with
  | .startBegin =>
    if s.isRecording || s.isProcessing || s.startLock then s
    else { s with startLock := true, pendingStart := true }
  | .startFinish captured =>
    if s.pendingStart then
      { s with streamHeld := true,
               liveStreams := s.liveStreams + 1,
               chunks := ([] : List Nat),
               sessionId := s.sessionId + 1,
               mr := some ⟨.recording, captured, s.sessionId + 1⟩,
               isRecording := true,
               pendingStart := false,
               lockTimer := true }
    else s
  | .startFail =>
    if s.pendingStart then
      teardown { s with isRecording := false, isProcessing := false,
                        startLock := false, pendingStart := false,
                        lockTimer := true }
    else s
  | .lockFire =>
    if s.lockTimer then { s with startLock := false, lockTimer := false } else s
  | .stop => stopCall s
  | .cancel => cancelCall s
  | .deliver =>
    match s.queue with
    | [] => s
    | e :: rest =>
      let s := { s with queue := rest }
      match e with
      | .dataAvail tok size => handleDataAvail s tok size
      | .stopEv tok => handleStopEv s tok
  | .onBlobResume =>
    if s.onBlobWaits = 0 then s
    else teardown { s with isProcessing := false, onBlobWaits := s.onBlobWaits - 1 }

/-- Run a sequence of atomic steps. -/
def runRec (s : RecState) (cmds : List Cmd) : RecState :=
  cmds.foldl step s

/-- A freshly mounted hook. -/
def rec0 : RecState :=
  { sessionId := 0, chunks := [], mr := none, isRecording := false,
    isProcessing := false, startLock := false, pendingStart := false,
    lockTimer := false, streamHeld := false, liveStreams := 0, queue := [],
    delivered := [], onBlobWaits := 0 }

/-- The final-blob branch of `onstop` (useRecorder.js lines 255–262)
composed with the App.jsx consumer: an empty final blob skips the
callback entirely, a nonempty one is handed to `onBlob`. The Bool
records whether the consumer callback was invoked. -/
def onstopFinalize (chunks : List Nat) (env : Env) (app : AppState) :
    AppState × Bool :=
  let finalBlobSize := chunks.sum
  if finalBlobSize = 0 then (app, false)
  else (onBlob env finalBlobSize app, true)

/-- The `vad` options object of `useRecorder` with its defaults
(useRecorder.js line 43). Times are in milliseconds, levels in dB,
both as rationals. -/
structure Vad where
  enabled : Bool := true
  silenceMs : ℚ := 1200
  thresholdDb : ℚ := -45
  minStartMs : ℚ := 250
deriving DecidableEq, Repr

/-- State read and written by the metering `tick` (useRecorder.js lines
134–163): `startedAtRef`, `silenceStartRef`, whether
`mediaRecorderRef.current` exists and is in the `recording` state, and a
count of the `mr.stop()` calls the tick has issued. -/
structure MeterState where
  startedAt : ℚ
  silenceStart : Option ℚ
  mrRecording : Bool
  stopCalls : Nat
deriving DecidableEq, Repr

/-- One VAD tick (useRecorder.js lines 134–163) at time `now` with the
measured level `db`: nothing past the level report happens when VAD is
disabled; within the grace period (`startedMs < minStartMs`) nothing
happens; past it, a loud tick (`db > thresholdDb`, strict) resets the
silence timer to null, a non-loud tick starts the timer if unset and,
once `silentFor >= silenceMs`, stops the recorder — guarded by
`mr.state === "recording"`, and `mr.stop()` moves the recorder to
`inactive`, so at most one stop is issued per recording. -/
def tick (vad : Vad) (st : MeterState) (now db : ℚ) : MeterState :=
  if vad.enabled then
    let loud := vad.thresholdDb < db
    let startedMs := now - st.startedAt
    if vad.minStartMs ≤ startedMs then
      if loud then { st with silenceStart := none }
      else
        let t0 := st.silenceStart.getD now
        let st := { st with silenceStart := some t0 }
        if vad.silenceMs ≤ now - t0 then
          if st.mrRecording then
            { st with mrRecording := false, stopCalls := st.stopCalls + 1 }
          else st
        else st
    else st
  else st

/-- A run of the animation-frame loop: one `tick` per `(now, db)` pair. -/
def runTicks (vad : Vad) (st : MeterState) (ticks : List (ℚ × ℚ)) : MeterState :=
  ticks.foldl (fun st p => tick vad st p.1 p.2) st

/-- `_levelDb` (useRecorder.js lines 111–117): mean of squares via the
accumulation loop, `pcm.length || 1` in the denominator, RMS by square
root, decibels via `20 * Math.log10(rms + 1e-7)`, then
`Math.max(-100, Math.min(0, db))`. -/
noncomputable def levelDb (pcm : List ℝ) : ℝ :=
  let sum := pcm.foldl (fun acc v => acc + v * v) 0
  let rms := Real.sqrt (sum / (if pcm.length = 0 then 1 else (pcm.length : ℝ)))
  let db := 20 * Real.logb 10 (rms + 1 / 10 ^ 7)
  max (-100) (min 0 db)

/-- Modelled from the spec (section 4.1): the root-mean-square of the
sample window, `sqrt` of the mean of the squared samples. -/
noncomputable def rmsSpec (pcm : List ℝ) : ℝ :=
  Real.sqrt (((pcm.map fun v => v ^ 2).sum) / pcm.length)

/-- Modelled from the spec (section 4.1): `20·log10(rms + ε)` with
`ε = 1e-7`, clamped to the interval `[-100, 0]`. -/
noncomputable def loudnessSpec (pcm : List ℝ) : ℝ :=
  min 0 (max (-100) (20 * Real.logb 10 (rmsSpec pcm + 1 / 10 ^ 7)))


/-- C3 (code bug): the dedup check's early `return` is inside the `try`
(App.jsx lines 81–84), so its `finally` (lines 166–169) still runs on
the drop path. A busy delivery does issue no remote call and leaves
every ConversationSession field (`sessionId`, `questionId`, `question`,
`lastScores`) unchanged — but it clears `onBlobLock` (and
`isProcessing`), releasing the lock held by the in-flight pipeline, so
the next utterance enters a second pipeline while the first is still
outstanding, contradicting "at most one utterance pipeline runs
concurrently". -/
theorem busy_drop_releases_lock_bug :
    (onBlob ⟨none, none, none, none, none⟩ 5
        { app0 with sessionId := some 3, questionId := some 4,
                    onBlobLock := true }).calls = []
    ∧ (onBlob ⟨none, none, none, none, none⟩ 5
        { app0 with sessionId := some 3, questionId := some 4,
                    onBlobLock := true }).sessionId = some 3
    ∧ (onBlob ⟨none, none, none, none, none⟩ 5
        { app0 with sessionId := some 3, questionId := some 4,
                    onBlobLock := true }).questionId = some 4
    ∧ (onBlob ⟨none, none, none, none, none⟩ 5
        { app0 with sessionId := some 3, questionId := some 4,
                    onBlobLock := true }).question = ""
    ∧ (onBlob ⟨none, none, none, none, none⟩ 5
        { app0 with sessionId := some 3, questionId := some 4,
                    onBlobLock := true }).lastScores = none
    ∧ (onBlob ⟨none, none, none, none, none⟩ 5
        { app0 with sessionId := some 3, questionId := some 4,
                    onBlobLock := true }).onBlobLock = false
    ∧ (onBlob ⟨none, some "c", some 9, none, none⟩ 6
        (onBlob ⟨none, none, none, none, none⟩ 5
          { app0 with sessionId := some 3, questionId := some 4,
                      onBlobLock := true })).calls
        = [.simAnswerAudio 3 4 (some 0), .ttsSay 3 4 (some 0)] :=
  ⟨rfl, rfl, rfl, rfl, rfl, rfl, rfl⟩

/-- C5: whenever `onBlob` actually enters the pipeline (the guard was
free), the busy flag is false again on exit for every possible outcome
of the remote calls — success or a throw at session start, audio
submit, or reply synthesis (a playback failure is swallowed by the inner
catch and cannot abort the pipeline) — and, when a session already
exists, `sessionId` and `questionId` are unchanged by every such
outcome, so the user can retry after a failure. -/
theorem pipeline_lock_released_and_session_preserved (env : Env) (b : Nat)
    (s : AppState) (h : s.onBlobLock = false) :
    (onBlob env b s).onBlobLock = false
    ∧ ∀ sid qid, s.sessionId = some sid → s.questionId = some qid →
        (onBlob env b s).sessionId = some sid
        ∧ (onBlob env b s).questionId = some qid := by
  constructor
  · rcases hs : s.sessionId with _ | sid <;> rcases hq : s.questionId with _ | qid <;>
      rcases henv : env.simStart with _ | r <;>
      rcases ha : env.asr with _ | t <;>
      rcases ht : env.tts with _ | w <;>
      simp [onBlob, onBlobTry, lazyStart, addMessage, h, hs, hq, henv, ha, ht]
  · intro sid qid hs hq
    rcases ha : env.asr with _ | t <;> rcases ht : env.tts with _ | w <;>
      simp [onBlob, onBlobTry, lazyStart, addMessage, h, hs, hq, ha, ht]

/-- Witness for `pipeline_lock_released_and_session_preserved`: a state
with a live session and an environment whose submit call fails. -/
theorem pipeline_lock_released_witness :
    (onBlob ⟨none, none, none, none, none⟩ 5
        { app0 with sessionId := some 3, questionId := some 4 }).onBlobLock = false
    ∧ (onBlob ⟨none, none, none, none, none⟩ 5
        { app0 with sessionId := some 3, questionId := some 4 }).sessionId = some 3
    ∧ (onBlob ⟨none, none, none, none, none⟩ 5
        { app0 with sessionId := some 3, questionId := some 4 }).questionId = some 4 := by
  have h := pipeline_lock_released_and_session_preserved
    ⟨none, none, none, none, none⟩ 5
    { app0 with sessionId := some 3, questionId := some 4 } rfl
  exact ⟨h.1, (h.2 3 4 rfl rfl).1, (h.2 3 4 rfl rfl).2⟩

/-- C6: a zero-byte final blob (`!finalBlob.size`) makes `onstop` skip
the consumer callback entirely: the pipeline is not invoked (`false`)
and the App state, including every ConversationSession field, is
returned unchanged — emptiness is "no speech", not an error. -/
theorem empty_utterance_skips_pipeline (chunks : List Nat) (env : Env)
    (app : AppState) (h : chunks.sum = 0) :
    onstopFinalize chunks env app = (app, false) := by
  simp [onstopFinalize, h]

/-- Witness for `empty_utterance_skips_pipeline` on an empty chunk list. -/
theorem empty_utterance_skips_pipeline_witness :
    onstopFinalize [] ⟨none, none, none, none, none⟩ app0 = (app0, false) :=
  empty_utterance_skips_pipeline [] ⟨none, none, none, none, none⟩ app0 rfl
/-- C7: starting a session, answering by voice, scoring, then asking for
the next question leaves the orchestrator posed on a fresh question:
`handleNext` replaces `questionId`/`question` with exactly the values of
the remote "next" response and clears the score stored by `handleScore`
(`lastScores = none`), while the session id from `handleStart` is kept. -/
theorem round_trip_fresh_question (env : Env) (b : Nat) (s : AppState)
    (r0 : StartRes) (t : String) (w : Nat) (sc : ScoreRes) (nx : NextRes)
    (hlock : s.onBlobLock = false)
    (h1 : env.simStart = some r0) (h2 : env.asr = some t)
    (h3 : env.tts = some w) (h4 : env.simScore = some sc)
    (h5 : env.simNext = some nx) :
    (handleNext env (handleScore env (onBlob env b (handleStart env s)))).sessionId
        = some r0.session_id
    ∧ (handleNext env (handleScore env (onBlob env b (handleStart env s)))).questionId
        = some nx.question_id
    ∧ (handleNext env (handleScore env (onBlob env b (handleStart env s)))).question
        = nx.question
    ∧ (handleNext env (handleScore env (onBlob env b (handleStart env s)))).lastScores
        = none := by
  simp [handleStart, handleNext, handleScore, onBlob, onBlobTry, lazyStart,
    addMessage, hlock, h1, h2, h3, h4, h5]

/-- Witness for `round_trip_fresh_question` on a concrete all-success
environment. -/
theorem round_trip_fresh_question_witness :
    (handleNext ⟨some ⟨7, 1, "q1"⟩, some "hi", some 9, some ⟨2, "q2"⟩, some ⟨⟨1, 2, 3, 4⟩, []⟩⟩
        (handleScore ⟨some ⟨7, 1, "q1"⟩, some "hi", some 9, some ⟨2, "q2"⟩, some ⟨⟨1, 2, 3, 4⟩, []⟩⟩
          (onBlob ⟨some ⟨7, 1, "q1"⟩, some "hi", some 9, some ⟨2, "q2"⟩, some ⟨⟨1, 2, 3, 4⟩, []⟩⟩ 5
            (handleStart ⟨some ⟨7, 1, "q1"⟩, some "hi", some 9, some ⟨2, "q2"⟩, some ⟨⟨1, 2, 3, 4⟩, []⟩⟩ app0)))).sessionId
        = some 7
    ∧ (handleNext ⟨some ⟨7, 1, "q1"⟩, some "hi", some 9, some ⟨2, "q2"⟩, some ⟨⟨1, 2, 3, 4⟩, []⟩⟩
        (handleScore ⟨some ⟨7, 1, "q1"⟩, some "hi", some 9, some ⟨2, "q2"⟩, some ⟨⟨1, 2, 3, 4⟩, []⟩⟩
          (onBlob ⟨some ⟨7, 1, "q1"⟩, some "hi", some 9, some ⟨2, "q2"⟩, some ⟨⟨1, 2, 3, 4⟩, []⟩⟩ 5
            (handleStart ⟨some ⟨7, 1, "q1"⟩, some "hi", some 9, some ⟨2, "q2"⟩, some ⟨⟨1, 2, 3, 4⟩, []⟩⟩ app0)))).questionId
        = some 2
    ∧ (handleNext ⟨some ⟨7, 1, "q1"⟩, some "hi", some 9, some ⟨2, "q2"⟩, some ⟨⟨1, 2, 3, 4⟩, []⟩⟩
        (handleScore ⟨some ⟨7, 1, "q1"⟩, some "hi", some 9, some ⟨2, "q2"⟩, some ⟨⟨1, 2, 3, 4⟩, []⟩⟩
          (onBlob ⟨some ⟨7, 1, "q1"⟩, some "hi", some 9, some ⟨2, "q2"⟩, some ⟨⟨1, 2, 3, 4⟩, []⟩⟩ 5
            (handleStart ⟨some ⟨7, 1, "q1"⟩, some "hi", some 9, some ⟨2, "q2"⟩, some ⟨⟨1, 2, 3, 4⟩, []⟩⟩ app0)))).lastScores
        = none := by
  have h := round_trip_fresh_question
    ⟨some ⟨7, 1, "q1"⟩, some "hi", some 9, some ⟨2, "q2"⟩, some ⟨⟨1, 2, 3, 4⟩, []⟩⟩
    5 app0 ⟨7, 1, "q1"⟩ "hi" 9 ⟨⟨1, 2, 3, 4⟩, []⟩ ⟨2, "q2"⟩
    rfl rfl rfl rfl rfl rfl
  exact ⟨h.1, h.2.1, h.2.2.2⟩

/-- C9: when a session exists and an utterance enters the pipeline, one
request id is drawn (the current `uuidCounter`) and that same id is the
`X-Req-Id` of both the transcription-submit call and the reply-synthesis
call of that turn; a second utterance entering the pipeline draws the
incremented counter, so two utterances never share an identifier. -/
theorem req_id_once_per_utterance (env env2 : Env) (b b2 : Nat)
    (s : AppState) (sid qid : Nat) (t t2 : String)
    (hlock : s.onBlobLock = false) (hs : s.sessionId = some sid)
    (hq : s.questionId = some qid) (ha : env.asr = some t)
    (ha2 : env2.asr = some t2) :
    (onBlob env b s).calls
        = s.calls ++ [.simAnswerAudio sid qid (some s.uuidCounter),
                      .ttsSay sid qid (some s.uuidCounter)]
    ∧ (onBlob env2 b2 (onBlob env b s)).calls
        = (onBlob env b s).calls
            ++ [.simAnswerAudio sid qid (some (s.uuidCounter + 1)),
                .ttsSay sid qid (some (s.uuidCounter + 1))]
    ∧ (some (s.uuidCounter + 1) : Option Nat) ≠ some s.uuidCounter := by
  refine ⟨?_, ?_, by simp⟩
  · rcases ht : env.tts with _ | w <;>
      simp [onBlob, onBlobTry, lazyStart, addMessage, hlock, hs, hq, ha, ht]
  · rcases ht : env.tts with _ | w <;>
      rcases ht2 : env2.tts with _ | w2 <;>
      simp [onBlob, onBlobTry, lazyStart, addMessage, hlock, hs, hq, ha, ha2, ht, ht2]

/-- Witness for `req_id_once_per_utterance` at a concrete session. -/
theorem req_id_once_per_utterance_witness :
    (onBlob ⟨none, some "a", some 9, none, none⟩ 5
        { app0 with sessionId := some 3, questionId := some 4 }).calls
      = [.simAnswerAudio 3 4 (some 0), .ttsSay 3 4 (some 0)]
    ∧ (onBlob ⟨none, some "b", none, none, none⟩ 6
        (onBlob ⟨none, some "a", some 9, none, none⟩ 5
          { app0 with sessionId := some 3, questionId := some 4 })).calls
      = (onBlob ⟨none, some "a", some 9, none, none⟩ 5
          { app0 with sessionId := some 3, questionId := some 4 }).calls
          ++ [.simAnswerAudio 3 4 (some 1), .ttsSay 3 4 (some 1)]
    ∧ (some 1 : Option Nat) ≠ some 0 := by
  have h := req_id_once_per_utterance ⟨none, some "a", some 9, none, none⟩
    ⟨none, some "b", none, none, none⟩ 5 6
    { app0 with sessionId := some 3, questionId := some 4 } 3 4 "a" "b"
    rfl rfl rfl rfl rfl
  exact ⟨h.1, h.2.1, h.2.2⟩

/-- The inductive invariant behind the at-most-one-device property:
the live-stream count always equals the `streamRef` occupancy indicator
(nothing leaks), a held stream implies the hook is recording or
processing, and a suspended `start()` can only exist while no stream is
held. -/
def RecInv (s : RecState) : Prop :=
  s.liveStreams = (if s.streamHeld then 1 else 0)
  ∧ (s.streamHeld = true → s.isRecording = true ∨ s.isProcessing = true)
  ∧ (s.pendingStart = true → s.streamHeld = false)

lemma recInv_rec0 : RecInv rec0 := by
  refine ⟨rfl, ?_, ?_⟩ <;> (intro h; simp [rec0] at h)

lemma recInv_teardown (s : RecState)
    (h1 : s.liveStreams = if s.streamHeld then 1 else 0) :
    RecInv (teardown s) := by
  refine ⟨?_, ?_, ?_⟩
  · simp only [teardown]
    rw [h1]
    cases hs : s.streamHeld <;> simp
  · intro h; simp [teardown] at h
  · intro _; rfl

lemma recInv_step (s : RecState) (c : Cmd) (h : RecInv s) : RecInv (step s c) := by
  obtain ⟨h1, h2, h3⟩ := h
  cases c with
  | startBegin =>
    simp only [step]
    split
    · exact ⟨h1, h2, h3⟩
    · next hc =>
      simp only [Bool.or_eq_true, not_or, Bool.not_eq_true] at hc
      obtain ⟨⟨hr0, hp0⟩, -⟩ := hc
      refine ⟨h1, h2, fun _ => ?_⟩
      cases hsh : s.streamHeld
      · rfl
      · rcases h2 hsh with hr | hp
        · exact absurd hr (by simp [hr0])
        · exact absurd hp (by simp [hp0])
  | startFinish cap =>
    simp only [step]
    split
    · next hp =>
      have hsh : s.streamHeld = false := h3 hp
      have hz : s.liveStreams = 0 := by rw [h1, hsh]; rfl
      refine ⟨?_, fun _ => Or.inl rfl, fun hff => ?_⟩
      · simp [hz]
      · simp at hff
    · exact ⟨h1, h2, h3⟩
  | startFail =>
    simp only [step]
    split
    · exact recInv_teardown _ h1
    · exact ⟨h1, h2, h3⟩
  | lockFire =>
    simp only [step]
    split
    · exact ⟨h1, h2, h3⟩
    · exact ⟨h1, h2, h3⟩
  | stop =>
    simp only [step, stopCall]
    split
    · exact ⟨h1, h2, h3⟩
    · split
      · exact ⟨h1, h2, h3⟩
      · exact ⟨h1, h2, h3⟩
  | cancel =>
    simp only [step, cancelCall]
    apply recInv_teardown
    rcases hmr : s.mr with _ | m <;> simp only [hmr]
    · exact h1
    · split
      · exact h1
      · exact h1
  | deliver =>
    simp only [step]
    split
    · exact ⟨h1, h2, h3⟩
    · next e rest heq =>
      cases e with
      | dataAvail tok size =>
        simp only [handleDataAvail]
        split
        · exact ⟨h1, h2, h3⟩
        · split
          · exact ⟨h1, h2, h3⟩
          · exact ⟨h1, h2, h3⟩
      | stopEv tok =>
        simp only [handleStopEv]
        split
        · exact ⟨h1, h2, h3⟩
        · split
          · exact recInv_teardown _ h1
          · exact ⟨h1, fun _ => Or.inr rfl, h3⟩
  | onBlobResume =>
    simp only [step]
    split
    · exact ⟨h1, h2, h3⟩
    · exact recInv_teardown _ h1

lemma recInv_runRec (cmds : List Cmd) (s : RecState) (h : RecInv s) :
    RecInv (runRec s cmds) := by
  induction cmds generalizing s with
  | nil => exact h
  | cons c cs ih => exact ih _ (recInv_step s c h)

/-- C2: for every interleaving of `start()` (its begin, its device-grant
or failure resumption, its lock-release timeout), `stop()`, `cancel()`
and the queued MediaRecorder callbacks, at most one microphone stream is
live at any instant; and a second `start()` issued while the first is
still pending is a strict no-op rejected by the start lock, so two
immediate `start()` calls yield exactly one session token and one device
acquisition. -/
theorem at_most_one_device_and_start_reentrancy :
    (∀ cmds : List Cmd, (runRec rec0 cmds).liveStreams ≤ 1)
    ∧ step (step rec0 .startBegin) .startBegin = step rec0 .startBegin
    ∧ ∀ b : Nat,
        (runRec rec0 [.startBegin, .startBegin, .startFinish b]).sessionId = 1
        ∧ (runRec rec0 [.startBegin, .startBegin, .startFinish b]).liveStreams = 1 := by
  refine ⟨?_, by decide, ?_⟩
  · intro cmds
    have h := (recInv_runRec cmds rec0 recInv_rec0).1
    rw [h]
    split <;> simp
  · intro b
    exact ⟨rfl, rfl⟩

/-- C1 (code bug): `cancel()` during `Recording` does not increment the
session token (`sessionIdRef` is untouched), so the final
`dataavailable` flushed by `mr.stop()` passes the stale-token check, is
re-buffered into the just-cleared `chunksRef`, and the subsequent
`onstop` builds a nonempty blob and delivers it to `onBlob`: with 5
buffered bytes at cancel time, the pipeline receives an Utterance of
size 5, contradicting "no Utterance is ever delivered". -/
theorem cancel_token_not_incremented_bug :
    (runRec rec0 [.startBegin, .startFinish 5, .cancel, .deliver, .deliver]).delivered
      = [5]
    ∧ (runRec rec0 [.startBegin, .startFinish 5, .cancel]).sessionId
      = (runRec rec0 [.startBegin, .startFinish 5]).sessionId := by
  exact ⟨rfl, rfl⟩

lemma tick_measure (vad : Vad) (st : MeterState) (now db : ℚ) :
    (tick vad st now db).stopCalls
        + (if (tick vad st now db).mrRecording then 1 else 0)
      ≤ st.stopCalls + (if st.mrRecording then 1 else 0) := by
  by_cases hE : vad.enabled = true
  · by_cases hG : vad.minStartMs ≤ now - st.startedAt
    · by_cases hL : vad.thresholdDb < db
      · simp [tick, hE, hG, hL]
      · by_cases hS : vad.silenceMs ≤ now - st.silenceStart.getD now
        · cases hR : st.mrRecording <;> simp [tick, hE, hG, hL, hS, hR]
        · simp [tick, hE, hG, hL, hS]
    · simp [tick, hE, hG]
  · simp [tick, hE]

lemma runTicks_measure (vad : Vad) (ticks : List (ℚ × ℚ)) (st : MeterState) :
    (runTicks vad st ticks).stopCalls
        + (if (runTicks vad st ticks).mrRecording then 1 else 0)
      ≤ st.stopCalls + (if st.mrRecording then 1 else 0) := by
  induction ticks generalizing st with
  | nil => exact le_refl _
  | cons p ps ih =>
    exact le_trans (ih (tick vad st p.1 p.2)) (tick_measure vad st p.1 p.2)

lemma tick_not_recording (vad : Vad) (st : MeterState) (now db : ℚ)
    (h : st.mrRecording = false) :
    (tick vad st now db).stopCalls = st.stopCalls
    ∧ (tick vad st now db).mrRecording = false := by
  by_cases hE : vad.enabled = true
  · by_cases hG : vad.minStartMs ≤ now - st.startedAt
    · by_cases hL : vad.thresholdDb < db
      · simp [tick, hE, hG, hL, h]
      · by_cases hS : vad.silenceMs ≤ now - st.silenceStart.getD now
        · simp [tick, hE, hG, hL, hS, h]
        · simp [tick, hE, hG, hL, hS, h]
    · simp [tick, hE, hG, h]
  · simp [tick, hE, h]

lemma runTicks_not_recording (vad : Vad) (ticks : List (ℚ × ℚ))
    (st : MeterState) (h : st.mrRecording = false) :
    (runTicks vad st ticks).stopCalls = st.stopCalls
    ∧ (runTicks vad st ticks).mrRecording = false := by
  induction ticks generalizing st with
  | nil => exact ⟨rfl, h⟩
  | cons p ps ih =>
    obtain ⟨h1, h2⟩ := tick_not_recording vad st p.1 p.2 h
    obtain ⟨h3, h4⟩ := ih (tick vad st p.1 p.2) h2
    exact ⟨h3.trans h1, h4⟩

lemma silent_run_stops (vad : Vad) (ticks : List (ℚ × ℚ)) (st : MeterState)
    (t0 : ℚ) (he : vad.enabled = true) (hrec : st.mrRecording = true)
    (hss : st.silenceStart = some t0)
    (hticks : ∀ p ∈ ticks,
        vad.minStartMs ≤ p.1 - st.startedAt ∧ p.2 ≤ vad.thresholdDb)
    (hwit : ∃ p ∈ ticks, vad.silenceMs ≤ p.1 - t0) :
    (runTicks vad st ticks).stopCalls = st.stopCalls + 1
    ∧ (runTicks vad st ticks).mrRecording = false := by
  induction ticks generalizing st with
  | nil =>
    rcases hwit with ⟨p, hp, -⟩
    exact absurd hp (List.not_mem_nil p)
  | cons p ps ih =>
    obtain ⟨hg, hb⟩ := hticks p (List.mem_cons_self p ps)
    by_cases hfire : vad.silenceMs ≤ p.1 - t0
    · have hstep : tick vad st p.1 p.2
          = { st with mrRecording := false, stopCalls := st.stopCalls + 1,
                      silenceStart := some t0 } := by
        simp [tick, he, hg, not_lt.mpr hb, hss, hfire, hrec]
      rw [runTicks, List.foldl_cons, hstep]
      exact runTicks_not_recording vad ps
        { st with mrRecording := false, stopCalls := st.stopCalls + 1,
                  silenceStart := some t0 } rfl
    · have hstep : tick vad st p.1 p.2 = st := by
        have h' : tick vad st p.1 p.2 = { st with silenceStart := some t0 } := by
          simp [tick, he, hg, not_lt.mpr hb, hss, hfire]
        rw [h', ← hss]
      rw [runTicks, List.foldl_cons, hstep]
      refine ih st hrec hss
        (fun q hq => hticks q (List.mem_cons_of_mem p hq)) ?_
      rcases hwit with ⟨q, hq, hql⟩
      rcases List.mem_cons.mp hq with h | h
      · subst h; exact absurd hql hfire
      · exact ⟨q, h, hql⟩

/-- C4: (i) a tick trace lying entirely inside the grace period
(`now - startedAt < minStartMs`) leaves the meter state untouched, so
sustained silence before the grace period never auto-stops; (ii) past
the grace period, a below-or-at-threshold tick whose running silence
timer has reached `silenceMs` stops the recording recorder exactly then;
(iii) over any tick trace, at most one `mr.stop()` is issued per
recording (the recorder leaves the `recording` state at the first stop);
(iv) any above-threshold tick past the grace period resets the silence
timer to null; (v) a run of post-grace, at-or-below-threshold ticks
starting with the silence timer unset and containing a tick at least
`silenceMs` after the first stops the recording recorder exactly once. -/
theorem vad_grace_and_single_autostop :
    (∀ (vad : Vad) (st : MeterState) (ticks : List (ℚ × ℚ)),
        (∀ p ∈ ticks, p.1 - st.startedAt < vad.minStartMs) →
        runTicks vad st ticks = st)
    ∧ (∀ (vad : Vad) (st : MeterState) (now db t0 : ℚ),
        vad.enabled = true → vad.minStartMs ≤ now - st.startedAt →
        db ≤ vad.thresholdDb → st.silenceStart = some t0 →
        vad.silenceMs ≤ now - t0 → st.mrRecording = true →
        tick vad st now db
          = { st with mrRecording := false, stopCalls := st.stopCalls + 1,
                      silenceStart := some t0 })
    ∧ (∀ (vad : Vad) (st : MeterState) (ticks : List (ℚ × ℚ)),
        st.stopCalls = 0 → st.mrRecording = true →
        (runTicks vad st ticks).stopCalls ≤ 1)
    ∧ (∀ (vad : Vad) (st : MeterState) (now db : ℚ),
        vad.enabled = true → vad.minStartMs ≤ now - st.startedAt →
        vad.thresholdDb < db → (tick vad st now db).silenceStart = none)
    ∧ (∀ (vad : Vad) (st : MeterState) (q : ℚ × ℚ) (ps : List (ℚ × ℚ)),
        vad.enabled = true → 0 < vad.silenceMs → st.mrRecording = true →
        st.silenceStart = none →
        (∀ p ∈ q :: ps,
            vad.minStartMs ≤ p.1 - st.startedAt ∧ p.2 ≤ vad.thresholdDb) →
        (∃ p ∈ ps, vad.silenceMs ≤ p.1 - q.1) →
        (runTicks vad st (q :: ps)).stopCalls = st.stopCalls + 1
        ∧ (runTicks vad st (q :: ps)).mrRecording = false) := by
  refine ⟨?_, ?_, ?_, ?_, ?_⟩
  · intro vad st ticks hall
    induction ticks with
    | nil => rfl
    | cons p ps ih =>
      have hp := hall p (List.mem_cons_self p ps)
      have hstep : tick vad st p.1 p.2 = st := by
        simp [tick, not_le.mpr hp]
      rw [runTicks, List.foldl_cons, hstep]
      exact ih (fun q hq => hall q (List.mem_cons_of_mem p hq))
  · intro vad st now db t0 he hg hdb hss hsil hrec
    simp [tick, he, hg, not_lt.mpr hdb, hss, hsil, hrec]
  · intro vad st ticks h0 hrec
    have := runTicks_measure vad ticks st
    rw [h0, hrec] at this
    simp at this
    omega
  · intro vad st now db he hg hdb
    simp [tick, he, hg, hdb]
  · intro vad st q ps he hpos hrec hss hticks hwit
    obtain ⟨hg, hb⟩ := hticks q (List.mem_cons_self q ps)
    have hnofire : ¬ vad.silenceMs ≤ 0 := not_le.mpr hpos
    have hstep : tick vad st q.1 q.2 = { st with silenceStart := some q.1 } := by
      simp [tick, he, hg, not_lt.mpr hb, hss, sub_self, hnofire]
    rw [runTicks, List.foldl_cons, hstep]
    exact silent_run_stops vad ps { st with silenceStart := some q.1 } q.1
      he hrec rfl (fun p hp => hticks p (List.mem_cons_of_mem q hp)) hwit

/-- Witness for `vad_grace_and_single_autostop` with the default VAD
options: a pre-grace trace changes nothing; a tick at 1500 ms with a
silence timer running since 100 ms and level −50 dB stops the recorder;
any trace from a recording start issues at most one stop; a −10 dB tick
past grace resets the timer. -/
theorem vad_grace_and_single_autostop_witness :
    runTicks {} ⟨0, none, true, 0⟩ [(10, -50), (200, -50)] = ⟨0, none, true, 0⟩
    ∧ tick {} ⟨0, some 100, true, 0⟩ 1500 (-50)
        = ⟨0, some 100, false, 1⟩
    ∧ (runTicks {} ⟨0, none, true, 0⟩ [(300, -50), (1600, -50), (3000, -50)]).stopCalls ≤ 1
    ∧ (tick {} ⟨0, some 100, true, 0⟩ 1500 (-10)).silenceStart = none
    ∧ (runTicks {} ⟨0, none, true, 0⟩ [(300, -50), (1600, -50)]).stopCalls = 1
    ∧ (runTicks {} ⟨0, none, true, 0⟩ [(300, -50), (1600, -50)]).mrRecording = false := by
  refine ⟨?_, ?_, ?_, ?_, ?_, ?_⟩
  · exact vad_grace_and_single_autostop.1 {} ⟨0, none, true, 0⟩ [(10, -50), (200, -50)]
      (by
        intro p hp
        simp only [List.mem_cons, List.not_mem_nil, or_false] at hp
        rcases hp with h | h <;> subst h <;> norm_num)
  · exact vad_grace_and_single_autostop.2.1 {} ⟨0, some 100, true, 0⟩ 1500 (-50) 100
      rfl (by norm_num) (by norm_num) rfl (by norm_num) rfl
  · exact vad_grace_and_single_autostop.2.2.1 {} ⟨0, none, true, 0⟩
      [(300, -50), (1600, -50), (3000, -50)] rfl rfl
  · exact vad_grace_and_single_autostop.2.2.2.1 {} ⟨0, some 100, true, 0⟩ 1500 (-10)
      rfl (by norm_num) (by norm_num)
  · exact (vad_grace_and_single_autostop.2.2.2.2 {} ⟨0, none, true, 0⟩ (300, -50)
      [(1600, -50)] rfl (by norm_num) rfl rfl
      (by
        intro p hp
        simp only [List.mem_cons, List.not_mem_nil, or_false] at hp
        rcases hp with h | h <;> subst h <;> constructor <;> norm_num)
      ⟨(1600, -50), List.mem_cons_self _ _, by norm_num⟩).1
  · exact (vad_grace_and_single_autostop.2.2.2.2 {} ⟨0, none, true, 0⟩ (300, -50)
      [(1600, -50)] rfl (by norm_num) rfl rfl
      (by
        intro p hp
        simp only [List.mem_cons, List.not_mem_nil, or_false] at hp
        rcases hp with h | h <;> subst h <;> constructor <;> norm_num)
      ⟨(1600, -50), List.mem_cons_self _ _, by norm_num⟩).2

/-- C10: with VAD enabled and the grace period over, a tick whose level
is exactly the threshold is classified as silence (the code tests
`db > thresholdDb` strictly): the silence timer starts or keeps running,
and if it has already spanned `silenceMs` the recorder is auto-stopped. -/
theorem threshold_equality_is_silence (vad : Vad) (st : MeterState) (now : ℚ)
    (he : vad.enabled = true) (hg : vad.minStartMs ≤ now - st.startedAt) :
    (tick vad st now vad.thresholdDb).silenceStart
        = some (st.silenceStart.getD now)
    ∧ ∀ t0, st.silenceStart = some t0 → vad.silenceMs ≤ now - t0 →
        st.mrRecording = true →
        (tick vad st now vad.thresholdDb).stopCalls = st.stopCalls + 1
        ∧ (tick vad st now vad.thresholdDb).mrRecording = false := by
  have hloud : ¬ vad.thresholdDb < vad.thresholdDb := lt_irrefl _
  constructor
  · by_cases hS : vad.silenceMs ≤ now - st.silenceStart.getD now
    · cases hR : st.mrRecording <;> simp [tick, he, hg, hloud, hS, hR]
    · simp [tick, he, hg, hloud, hS]
  · intro t0 hss hsil hrec
    constructor <;> simp [tick, he, hg, hloud, hss, hsil, hrec]

/-- Witness for `threshold_equality_is_silence`: a tick at exactly
−45 dB (the default threshold) at 1500 ms with silence since 100 ms. -/
theorem threshold_equality_is_silence_witness :
    (tick {} ⟨0, some 100, true, 0⟩ 1500 ({} : Vad).thresholdDb).silenceStart
        = some 100
    ∧ (tick {} ⟨0, some 100, true, 0⟩ 1500 ({} : Vad).thresholdDb).stopCalls = 1
    ∧ (tick {} ⟨0, some 100, true, 0⟩ 1500 ({} : Vad).thresholdDb).mrRecording = false := by
  have h := threshold_equality_is_silence {} ⟨0, some 100, true, 0⟩ 1500
    rfl (by norm_num)
  exact ⟨h.1, (h.2 100 rfl (by norm_num) rfl).1, (h.2 100 rfl (by norm_num) rfl).2⟩

lemma foldl_square_sum (l : List ℝ) (a : ℝ) :
    l.foldl (fun acc v => acc + v * v) a = a + ((l.map fun v => v ^ 2).sum) := by
  induction l generalizing a with
  | nil => simp
  | cons x xs ih =>
    simp only [List.foldl_cons, List.map_cons, List.sum_cons, ih]
    ring

/-- C8: on every tick the reported loudness is
`20·log10(rms + ε)` (with `ε = 1e-7 > 0`) of the current sample window,
`rms` being the root-mean-square of the samples, clamped to `[-100, 0]`:
`levelDb` (the accumulation-loop form of the source) agrees with the
spec-side `loudnessSpec` on every nonempty window, and its value always
lies in the interval `[-100, 0]`. -/
theorem level_db_formula (pcm : List ℝ) (h : pcm ≠ []) :
    levelDb pcm = loudnessSpec pcm
    ∧ levelDb pcm ∈ Set.Icc (-100 : ℝ) 0 := by
  have hn : pcm.length ≠ 0 := by simpa using h
  constructor
  · unfold levelDb loudnessSpec rmsSpec
    rw [foldl_square_sum]
    simp only [hn, if_false, zero_add, if_neg hn]
    rw [min_max_distrib_left, min_eq_right (by norm_num : (-100 : ℝ) ≤ 0)]
  · unfold levelDb
    refine Set.mem_Icc.mpr ⟨le_max_left _ _, ?_⟩
    exact max_le (by norm_num) (min_le_left _ _)

/-- Witness for `level_db_formula` on the single-sample window `[0]`. -/
theorem level_db_formula_witness :
    levelDb [0] = loudnessSpec [0]
    ∧ levelDb [0] ∈ Set.Icc (-100 : ℝ) 0 :=
  level_db_formula [0] (by simp)

end Trainer
